import Mathlib

/-!
Verification of the acachesuki score-submission backend.

This file gives a shallow embedding of the consistency-critical parts of the
code base (the generic cache primitive, the specialized lookup caches, the
beatmap resolver, the score-classification pipeline, the leaderboard engine
and the statistics recalculation) and proves or refutes the specification
claims about them.

Modelling conventions:
  - machine integers are `Int`, CPython floats and timestamps are exact
    rationals `Rat`;
  - a MySQL table is a list of typed rows, a Python dict is an association
    list in insertion order;
  - fallible code returns `Except`;
  - external I/O (store queries, metadata-service calls) is supplied as
    explicit oracle functions in the state, together with counters of how
    many calls were issued.
-/

/-- Python builtin round: round half to even (banker's rounding), acting on
the exact rationals that stand in for CPython floats. -/
def pyRound (q : ℚ) : ℤ :=
  let f : ℤ := ⌊q⌋
  let r : ℚ := q - f
  if r < 1 / 2 then f
  else if 1 / 2 < r then f + 1
  else if 2 ∣ f then f else f + 1

/-- Beatmap approval statuses, from const.Status (an IntEnum). -/
inductive Status
  | GRAVEYARD
  | NOT_SUBMITTED
  | PENDING
  | UPDATE_AVAILABLE
  | RANKED
  | APPROVED
  | QUALIFIED
  | LOVED
deriving DecidableEq

/-- Integer value of each Status member, as declared in const.py. -/
def Status.val : Status → ℤ
  | .GRAVEYARD => -2
  | .NOT_SUBMITTED => -1
  | .PENDING => 0
  | .UPDATE_AVAILABLE => 1
  | .RANKED => 2
  | .APPROVED => 3
  | .QUALIFIED => 4
  | .LOVED => 5

/-- Game modes, from const.Mode (an IntEnum). -/
inductive Mode
  | VN_STANDARD
  | VN_TAIKO
  | VN_CATCH
  | VN_MANIA
  | RX_STANDARD
  | RX_TAIKO
  | RX_CATCH
  | AP_STANDARD
deriving DecidableEq

/-- Integer value of each Mode member, as declared in const.py. -/
def Mode.val : Mode → ℤ
  | .VN_STANDARD => 0
  | .VN_TAIKO => 1
  | .VN_CATCH => 2
  | .VN_MANIA => 3
  | .RX_STANDARD => 4
  | .RX_TAIKO => 5
  | .RX_CATCH => 6
  | .AP_STANDARD => 7

/-- Mode.as_mode_int from const.py: converts the mode enum to the mode int
stored in the database. -/
def Mode.as_mode_int (m : Mode) : ℤ :=
  if m.val = 7 then 0
  else if 3 < m.val then m.val - 4
  else m.val

/-- Mode.relax from const.py. -/
def Mode.relax (m : Mode) : Bool :=
  decide (3 < m.val) && !(m.val == 7)

/-- Mode.autopilot from const.py. -/
def Mode.autopilot (m : Mode) : Bool :=
  m.val == 7

/-- Mode.scores_table from const.py: the per-mode score table name. -/
def Mode.scores_table (m : Mode) : String :=
  if m.autopilot then "scores_ap"
  else if m.relax then "scores_relax"
  else "scores"

/-- Look up a key in a Python dict modelled as an association list in
insertion order (dict.get). -/
def dictGet {K V : Type} [DecidableEq K] (l : List (K × V)) (k : K) : Option V :=
  (l.find? (fun e => decide (e.1 = k))).map (·.2)

/-- Set a key in a Python dict modelled as an association list: an existing
key keeps its position, a new key is appended (CPython dict semantics). -/
def dictSet {K V : Type} [DecidableEq K] (l : List (K × V)) (k : K) (v : V) :
    List (K × V) :=
  if l.any (fun e => decide (e.1 = k)) then
    l.map (fun e => if e.1 = k then (k, v) else e)
  else
    l ++ [(k, v)]

/-- Remove a key from a Python dict modelled as an association list; a
missing key is silently ignored (del wrapped in try/except KeyError). -/
def dictDel {K V : Type} [DecidableEq K] (l : List (K × V)) (k : K) :
    List (K × V) :=
  l.filter (fun e => !(decide (e.1 = k)))

/-- Cache entry of objects.cache.LRUCache: the stored object together with
its absolute expiry instant. -/
structure CachedObject (V : Type) where
  expire : ℤ
  obj : V
deriving DecidableEq

/-- State of objects.cache.LRUCache. The backing dict is kept in insertion
order; length is the TTL in seconds (cache_length * 60). -/
structure LRUCache (K V : Type) where
  _cache : List (K × CachedObject V)
  length : ℤ
  _cache_limit : ℕ
deriving DecidableEq

/-- LRUCache.get: returns the stored object or nothing. Expiry is NOT
checked on read and the expiry is not refreshed. -/
def LRUCache.get {K V : Type} [DecidableEq K] (c : LRUCache K V) (k : K) :
    Option V :=
  (dictGet c._cache k).map (·.obj)

/-- Python list slice xs[:t] for an Int bound t: a negative bound keeps all
but the last entries, clamped at zero. -/
def pySliceTo {α : Type} (t : ℤ) (xs : List α) : List α :=
  xs.take (if 0 ≤ t then t.toNat else ((xs.length : ℤ) + t).toNat)

/-- LRUCache._remove_expired_cache: drops every entry whose expiry is in the
past at instant now. -/
def LRUCache._remove_expired_cache {K V : Type} (now : ℤ) (c : LRUCache K V) :
    LRUCache K V :=
  { c with _cache := c._cache.filter (fun e => !(decide (e.2.expire < now))) }

/-- LRUCache._remove_limit_cache, verbatim from the source: computes
throw_away_count = len - limit, returns only when that count is exactly
zero, and otherwise removes the keys in the slice keys[:throw_away_count].
A negative count is truthy in Python, so the slice with a negative bound
also removes entries while the cache is BELOW its limit. -/
def LRUCache._remove_limit_cache {K V : Type} [DecidableEq K]
    (c : LRUCache K V) : LRUCache K V :=
  let keys := c._cache.map Prod.fst
  let throw_away_count : ℤ := (keys.length : ℤ) - (c._cache_limit : ℤ)
  if throw_away_count = 0 then c
  else
    let throw_away_ids := pySliceTo throw_away_count keys
    { c with _cache := c._cache.filter (fun e => !(throw_away_ids.contains e.1)) }

/-- LRUCache.run_checks: the expiry pass followed by the capacity pass. -/
def LRUCache.run_checks {K V : Type} [DecidableEq K] (now : ℤ)
    (c : LRUCache K V) : LRUCache K V :=
  (c._remove_expired_cache now)._remove_limit_cache

/-- LRUCache.cache: stores the object with a fresh expiry, then runs the
eviction checks. -/
def LRUCache.cache {K V : Type} [DecidableEq K] (now : ℤ) (c : LRUCache K V)
    (k : K) (v : V) : LRUCache K V :=
  LRUCache.run_checks now
    { c with _cache := dictSet c._cache k ⟨now + c.length, v⟩ }

/-- Concrete run for claim C4: an LRUCache with capacity limit 4 and a five
minute TTL receives five distinct keys at time 0. -/
def c4Run : LRUCache ℕ ℕ :=
  [1, 2, 3, 4, 5].foldl (fun c k => c.cache 0 k k)
    { _cache := [], length := 300, _cache_limit := 4 }

/-- Low-weight beatmap object from objects/beatmap.py. Timestamps are
rational seconds standing in for datetime values. -/
structure LWBeatmap where
  id : ℤ
  set_id : ℤ
  md5 : String
  status : Status
  song_name : String
  rating : ℚ
  last_update_ts : ℚ
  frozen : Bool
  playcount : ℤ
  passcount : ℤ
deriving DecidableEq

/-- Statuses for which the linear-time staleness scaling may be applied,
from objects/beatmap.py. -/
def UPDATE_SKIP_STATUSES : List Status := [Status.RANKED, Status.APPROVED]

/-- LWBeatmap.deserves_update, verbatim from objects/beatmap.py lines 66-88:
returns True immediately when the map is frozen OR its status is outside
UPDATE_SKIP_STATUSES; otherwise applies the linear time scaling
check_delta = 2 hours + (5/365) hours per day of record age. The defensive
except TypeError branch of the source guards malformed timestamp data and
is unreachable in this typed model. -/
def deserves_update (now : ℚ) (b : LWBeatmap) : Bool :=
  if b.frozen || !(UPDATE_SKIP_STATUSES.contains b.status) then
    true
  else
    let update_delta_days : ℤ := ⌊(now - b.last_update_ts) / 86400⌋
    let check_delta : ℚ := 3600 * (2 + 5 / 365 * update_delta_days)
    decide (now > b.last_update_ts + check_delta)

/-- LWBeatmap.blank_with_status from objects/beatmap.py (the timestamp of
these sentinel objects is never read by any code path modelled here). -/
def LWBeatmap.blank_with_status (st : Status) : LWBeatmap :=
  { id := 0, set_id := 0, md5 := "", status := st, song_name := "",
    rating := 0, last_update_ts := 0, frozen := false,
    playcount := 0, passcount := 0 }

/-- Sentinel returned for hashes memoized as needing a client update. -/
def UPDATE_BMAP : LWBeatmap := LWBeatmap.blank_with_status Status.UPDATE_AVAILABLE

/-- Sentinel returned for hashes memoized as not submitted. -/
def NOT_SUB_BMAP : LWBeatmap := LWBeatmap.blank_with_status Status.NOT_SUBMITTED

/-- State threaded through the beatmap resolver: the absent memo
(globs.cache.no_check_md5s), the global beatmap cache (globs.cache.beatmap),
the beatmaps table and the external metadata service as lookup oracles, and
counters of store and external-service calls issued. The oracle for the
external service already collapses request errors to none, as
from_akat_mirror does. -/
structure ResolverState where
  no_check_md5s : List (String × Status)
  beatmap_cache : LRUCache String LWBeatmap
  db_beatmaps : String → Option LWBeatmap
  mirror : String → Option LWBeatmap
  db_fetches : ℕ
  mirror_fetches : ℕ

/-- Effect of LWBeatmap.save plus LWBeatmap.cache: persist the record to the
store (REPLACE INTO beatmaps; keyed here by the md5 under which the resolver
re-reads it) and write it into the beatmap cache. -/
def save_and_cache (now : ℚ) (st : ResolverState) (b : LWBeatmap) :
    ResolverState :=
  { st with
    db_beatmaps := fun m => if m = b.md5 then some b else st.db_beatmaps m,
    beatmap_cache := st.beatmap_cache.cache ⌊now⌋ b.md5 b }

/-- Tail of try_bmap from objects/beatmap.py lines 289-311: the
needs-update memoization and the staleness re-check against the external
service. The argument res carries the FetchResult counter accumulated so
far (1 cache, 2 store, 3 external). -/
def try_bmap_update (now : ℚ) (md5 : String) (st : ResolverState) (res : ℕ)
    (bmap : LWBeatmap) : (ℕ × Option LWBeatmap) × ResolverState :=
  if bmap.status = Status.UPDATE_AVAILABLE then
    ((0, none),
      { st with no_check_md5s := dictSet st.no_check_md5s md5 Status.UPDATE_AVAILABLE })
  else if deserves_update now bmap then
    let st1 := { st with mirror_fetches := st.mirror_fetches + 1 }
    match st1.mirror md5 with
    | some current_data =>
      let bmap1 := { bmap with last_update_ts := now }
      if current_data.md5 ≠ bmap1.md5 then
        ((res + 1, some current_data), save_and_cache now st1 current_data)
      else
        ((res, some bmap1), st1)
    | none => ((res, some bmap), st1)
  else
    ((res, some bmap), st)

/-- Body of try_bmap after the absent-memo check, from objects/beatmap.py
lines 268-311: cache, then store, then external service; the first source
past the cache that succeeds is persisted and cached; if all three miss the
hash is memoized as not submitted. -/
def try_bmap_after_memo (now : ℚ) (md5 : String) (st : ResolverState) :
    (ℕ × Option LWBeatmap) × ResolverState :=
  match st.beatmap_cache.get md5 with
  | some bmap => try_bmap_update now md5 st 1 bmap
  | none =>
    let st1 := { st with db_fetches := st.db_fetches + 1 }
    match st1.db_beatmaps md5 with
    | some bmap => try_bmap_update now md5 (save_and_cache now st1 bmap) 2 bmap
    | none =>
      let st2 := { st1 with mirror_fetches := st1.mirror_fetches + 1 }
      match st2.mirror md5 with
      | some bmap => try_bmap_update now md5 (save_and_cache now st2 bmap) 3 bmap
      | none =>
        ((0, none),
          { st2 with no_check_md5s := dictSet st2.no_check_md5s md5 Status.NOT_SUBMITTED })

/-- try_bmap from objects/beatmap.py lines 255-311. The first component of
the result mirrors the FetchResult value (0 none, 1 cache, 2 store,
3 external). The memo hit applies IntEnum truthiness, exactly as the
walrus test of the source does. -/
def try_bmap (now : ℚ) (md5 : String) (st : ResolverState) :
    (ℕ × Option LWBeatmap) × ResolverState :=
  match dictGet st.no_check_md5s md5 with
  | some s =>
    if s.val = 0 then try_bmap_after_memo now md5 st
    else if s = Status.UPDATE_AVAILABLE then ((0, some UPDATE_BMAP), st)
    else ((0, some NOT_SUB_BMAP), st)
  | none => try_bmap_after_memo now md5 st

/-- Fields of a parsed score submission read by the classification and
persistence code (objects/score.py). -/
structure ScoreSub where
  user_id : ℤ
  map_md5 : String
  mode : Mode
  pp : ℚ
  score : ℤ
  n300 : ℤ
  n100 : ℤ
  n50 : ℤ
  geki : ℤ
  katu : ℤ
  checksum : String
  passed : Bool
  quit : Bool
deriving DecidableEq

/-- Row of a per-mode score table, tagged with the name of the table it was
inserted into. Only the columns read by the modelled queries appear. -/
structure ScoreRow where
  table : String
  userid : ℤ
  beatmap_md5 : String
  play_mode : ℤ
  completed : ℤ
  pp : ℚ
  score : ℤ
  checksum : String
deriving DecidableEq

/-- Applies f to the first list entry satisfying p, leaving the rest alone
(an UPDATE ... LIMIT 1 over a table in row order). -/
def updateFirst {α : Type} (p : α → Bool) (f : α → α) : List α → List α
  | [] => []
  | x :: xs => if p x then f x :: xs else x :: updateFirst p f xs

/-- WHERE clause shared by the two queries of Score.calc_status: a persisted
best row of this submitter on this map, mode and score table. -/
def isPrevBest (s : ScoreSub) (r : ScoreRow) : Bool :=
  decide (r.table = s.mode.scores_table) && decide (r.userid = s.user_id) &&
  decide (r.completed = 3) && decide (r.beatmap_md5 = s.map_md5) &&
  decide (r.play_mode = s.mode.as_mode_int)

/-- Score.calc_status from objects/score.py lines 255-288: quit gives 0,
completed-but-failed gives 1; otherwise one UPDATE demotes (LIMIT 1) the
existing best row whose pp is strictly below the new pp, and the new score
is best (3) exactly when no best row remains, else 2. The comparison is on
pp for every mode. -/
def calc_status (s : ScoreSub) (db : List ScoreRow) : ℤ × List ScoreRow :=
  if s.quit then (0, db)
  else if !s.passed then (1, db)
  else
    let db1 := updateFirst (fun r => isPrevBest s r && decide (r.pp < s.pp))
      (fun r => { r with completed := 2 }) db
    if db1.any (isPrevBest s) then (2, db1) else (3, db1)

/-- Ranking metric selection, from handlers.py line 259 and spec section
4.4: performance value for the pp-based mode group (relax and autopilot,
enum value above VN_MANIA), raw score otherwise. -/
def ranking_metric (m : Mode) (pp : ℚ) (score : ℤ) : ℚ :=
  if 3 < m.val then pp else (score : ℚ)

/-- Row written by Score.submit (objects/score.py lines 325-356): the INSERT
targets the table named by Mode.scores_table. -/
def submit_row (s : ScoreSub) (status : ℤ) : ScoreRow :=
  { table := s.mode.scores_table, userid := s.user_id,
    beatmap_md5 := s.map_md5, play_mode := s.mode.as_mode_int,
    completed := status, pp := s.pp, score := s.score,
    checksum := s.checksum }

/-- Score table read by a database leaderboard load, from
objects/leaderboards.py line 220: chosen by the relax flag alone. -/
def lb_from_db_table (m : Mode) : String :=
  if m.relax then "scores_relax" else "scores"

/-- ORDER BY / scoring column of a database leaderboard load, from
objects/leaderboards.py line 221: pp for relax, raw score otherwise. -/
def lb_from_db_sort (m : Mode) : String :=
  if m.relax then "pp" else "score"

/-- Row filter of the leaderboard query of LeaderboardResult.from_db
(objects/leaderboards.py lines 197-231): best rows of the map and mode in
the table chosen by lb_from_db_table. The privilege join and the display
LIMIT do not matter to the claims settled here. -/
def lb_from_db_select (db : List ScoreRow) (md5 : String) (m : Mode) :
    List ScoreRow :=
  db.filter (fun r =>
    decide (r.table = lb_from_db_table m) && decide (r.beatmap_md5 = md5) &&
    decide (r.play_mode = m.as_mode_int) && decide (r.completed = 3))

/-- Entry of the in-memory leaderboard used by the submission handler. -/
structure LBScore where
  id : ℤ
  user_id : ℤ
  pp : ℚ
  score : ℤ
deriving DecidableEq

/-- Modelled from the spec: the class Leaderboard used by handlers.py
(get_leaderboard, add_score, find_score_rank, remove_user) is absent from
the provided sources, which define only LeaderboardResult; this follows
spec section 4.4. -/
structure Leaderboard where
  mode : Mode
  scores : List LBScore
deriving DecidableEq

/-- Ranking metric of one leaderboard entry (spec section 4.4: performance
value for pp-based modes, raw score otherwise). -/
def lb_metric (m : Mode) (s : LBScore) : ℚ :=
  ranking_metric m s.pp s.score

/-- Modelled from the spec: addScore removes any existing entry of the
submitting user, appends the new score, and re-sorts the whole list
descending by ranking metric with a stable tie-break (stable mergesort). -/
def Leaderboard.add_score (lb : Leaderboard) (s : LBScore) : Leaderboard :=
  let kept := lb.scores.filter (fun t => !(decide (t.user_id = s.user_id)))
  let sorted := (kept ++ [s]).mergeSort
    (fun a b => decide (lb_metric lb.mode b ≤ lb_metric lb.mode a))
  { lb with scores := sorted }

/-- Modelled from the spec: removeUser drops the current entry of the given
user if present. -/
def Leaderboard.remove_user (lb : Leaderboard) (uid : ℤ) : Leaderboard :=
  { lb with scores := lb.scores.filter (fun t => !(decide (t.user_id = uid))) }

/-- Modelled from the spec: findScoreRank gives the 1-based position of a
score id, or 0 when not present. -/
def Leaderboard.find_score_rank (lb : Leaderboard) (sid : ℤ) : ℕ :=
  match lb.scores.findIdx? (fun t => decide (t.id = sid)) with
  | some i => i + 1
  | none => 0

/-- Dynamically typed Python value as far as Stats.recalc manipulates one:
an int, a float, None, or a one-column result row (tuple). -/
inductive PyVal
  | intV (z : ℤ)
  | floatV (q : ℚ)
  | noneV
  | tupV (q : ℚ)
deriving DecidableEq

/-- Python truthiness of a PyVal. -/
def PyVal.truthy : PyVal → Bool
  | .intV z => !(decide (z = 0))
  | .floatV q => !(decide (q = 0))
  | .noneV => false
  | .tupV _ => true

/-- Runtime errors raised by the modelled fragments of Stats.recalc. -/
inductive PyErr
  | typeError
  | nameError
deriving DecidableEq

/-- Python comparison a > b on dynamic values: defined between numbers and
between tuples, a TypeError otherwise (in particular between None and a
tuple, and between a number and a tuple). -/
def pyGT : PyVal → PyVal → Except PyErr Bool
  | .intV a, .intV b => .ok (decide (b < a))
  | .intV a, .floatV b => .ok (decide (b < (a : ℚ)))
  | .floatV a, .intV b => .ok (decide ((b : ℚ) < a))
  | .floatV a, .floatV b => .ok (decide (b < a))
  | .tupV a, .tupV b => .ok (decide (b < a))
  | _, _ => .error .typeError

/-- Mutable fields of objects.stats.Stats touched by the submission
pipeline. The field _recalc_pp starts as the int 0 and is overwritten by
Stats.recalc with a raw result row. -/
structure StatsState where
  ranked_score : ℤ
  total_score : ℤ
  pp : ℚ
  accuracy : ℚ
  playcount : ℤ
  total_hits : ℤ
  _recalc_pp : PyVal
deriving DecidableEq

/-- Weighted performance total of Stats.recalc (objects/stats.py lines
108-110): the loop total_pp += round(round(pp) * 0.95 ** idx) over the
enumerated top rows, with 0.95 as the exact rational 19/20. -/
def recalcTotalPP (scores_pp : List ℚ) : ℤ :=
  scores_pp.enum.foldl
    (fun total_pp x => total_pp + pyRound ((pyRound x.2 : ℚ) * (19 / 20) ^ x.1)) 0

/-- Weighted accuracy of Stats.recalc (objects/stats.py lines 124-133):
weight index i by int(0.95 ** i * 100); the except branch that yields 0.0
fires exactly when the divider is zero, that is on an empty row list. -/
def recalcAccuracy (scores_acc : List ℚ) : ℚ :=
  let sums := scores_acc.enum.foldl
    (fun s x => (s.1 + x.2 * (⌊(19 / 20 : ℚ) ^ x.1 * 100⌋ : ℚ),
                 s.2 + (⌊(19 / 20 : ℚ) ^ x.1 * 100⌋ : ℚ)))
    ((0 : ℚ), (0 : ℚ))
  if sums.2 = 0 then 0 else sums.1 / sums.2

/-- Stats.recalc from objects/stats.py lines 92-134. The two SELECT results
are supplied as arguments: top_scores is the top-125 best ranking-eligible
pp list, accs the top-500 accuracy list. The recompute runs when no decay
floor is cached (the falsy int 0) or when score_pp compares above the
cached floor; the source stores the raw last result ROW (a tuple) as the
floor, so that comparison is between score_pp and a tuple. With an empty
top list the loop variable idx_pp is never bound and reading it raises a
NameError. The handler call site (handlers.py line 586) always passes
score_pp = None. -/
def Stats.recalc (score_pp : PyVal) (top_scores accs : List ℚ)
    (st : StatsState) : Except PyErr StatsState := do
  let doRecompute ←
    if st._recalc_pp.truthy = false then pure true
    else pyGT score_pp st._recalc_pp
  let totalAndFloor ←
    if doRecompute then
      match top_scores.getLast? with
      | none => Except.error PyErr.nameError
      | some last =>
        Except.ok ((recalcTotalPP top_scores : ℚ),
          if top_scores.length = 125 then PyVal.tupV last else st._recalc_pp)
    else
      Except.ok (st.pp, st._recalc_pp)
  Except.ok { st with pp := totalAndFloor.1, accuracy := recalcAccuracy accs,
                      _recalc_pp := totalAndFloor.2 }

/-- Submission outcomes distinguished by the modelled pipeline fragment. -/
inductive SubmissionOutcome
  | duplicate
  | processed (status : ℤ)
deriving DecidableEq

/-- In-memory stats mutation applied by handlers.py lines 565-570 before
the save: playcount, total score and total hits (with geki and katu counted
for taiko and mania). -/
def stats_bump (st : StatsState) (s : ScoreSub) : StatsState :=
  { st with
    playcount := st.playcount + 1,
    total_score := st.total_score + s.score,
    total_hits := st.total_hits + s.n300 + s.n100 + s.n50 +
      (if s.mode.as_mode_int = 1 ∨ s.mode.as_mode_int = 3 then s.geki + s.katu else 0) }

/-- Leaderboard entry built from a submission (id is assigned on persist
and irrelevant to the claims settled here). -/
def lb_score_of (s : ScoreSub) : LBScore :=
  { id := 0, user_id := s.user_id, pp := s.pp, score := s.score }

/-- Store-relevant skeleton of handle_submission (handlers.py lines
418-729). Score.from_score_submission ends by running Score.calc_status
(objects/score.py line 136), so classification and its demoting UPDATE
happen BEFORE the duplicate-checksum check of handlers.py lines 468-475.
On a duplicate the handler sets status -1 and returns at once. The
processing that follows a non-duplicate (lines 477-729) is summarized by
its three store effects relevant to the claims: persist the new row
(Score.submit), bump the in-memory stats, and update the leaderboard for a
completed-and-passed score. -/
def handle_submission_core (s : ScoreSub) (db : List ScoreRow)
    (stats : StatsState) (lb : Leaderboard) :
    SubmissionOutcome × List ScoreRow × StatsState × Leaderboard :=
  let classified := calc_status s db
  let status := classified.1
  let db1 := classified.2
  if db1.any (fun r =>
      decide (r.table = s.mode.scores_table) && decide (r.checksum = s.checksum)) then
    (SubmissionOutcome.duplicate, db1, stats, lb)
  else
    let db2 := db1 ++ [submit_row s status]
    let stats1 := stats_bump stats s
    let lb1 := if status = 3 ∨ status = 2 then lb.add_score (lb_score_of s) else lb
    (SubmissionOutcome.processed status, db2, stats1, lb1)

/-- Error raised by the reload paths of the privilege and country caches on
a missing backing row: an exception type created ad hoc at the call site
(the NotFound kind of the spec). -/
inductive CacheErr
  | WTFError
deriving DecidableEq

/-- PrivilegeCache.cache_individual from objects/cache.py lines 438-466:
drop any cached value, then reload from the store; with no backing row an
error is raised and nothing is cached. The fetchone result is the row
argument. -/
def priv_cache_individual (c : List (ℤ × ℤ)) (u : ℤ) (row : Option ℤ) :
    Except CacheErr ℤ × List (ℤ × ℤ) :=
  let c1 := dictDel c u
  match row with
  | none => (.error .WTFError, c1)
  | some p => (.ok p, dictSet c1 u p)

/-- CountryCache.cache_individual from objects/cache.py lines 503-529: same
shape as the privilege cache, raising on a missing row. -/
def country_cache_individual (c : List (ℤ × String)) (u : ℤ)
    (row : Option String) : Except CacheErr Unit × List (ℤ × String) :=
  let c1 := dictDel c u
  match row with
  | none => (.error .WTFError, c1)
  | some s => (.ok (), dictSet c1 u s)

/-- ClanCache.cache_individual from objects/cache.py lines 326-353: with no
backing row it RETURNS silently, caching nothing and raising nothing. -/
def clan_cache_individual (c : List (ℤ × String)) (u : ℤ)
    (row : Option String) : Except CacheErr Unit × List (ℤ × String) :=
  let c1 := dictDel c u
  match row with
  | none => (.ok (), c1)
  | some tag => (.ok (), dictSet c1 u tag)

/-- WhitelistCache.cache_individual from objects/cache.py lines 620-643: it
stores the raw fetchone result unconditionally; with no backing row that
result is None, so a null value IS written into the cache. -/
def whitelist_cache_individual (c : List (ℤ × Option ℤ)) (u : ℤ)
    (row : Option ℤ) : Except CacheErr Unit × List (ℤ × Option ℤ) :=
  let c1 := dictDel c u
  (.ok (), dictSet c1 u row)

/-- WhitelistCache.get from objects/cache.py lines 604-618: a missing entry
and a falsy stored value both give False; otherwise bit 0 (vanilla) or
bit 1 (relax) of the stored mask decides. -/
def whitelist_get (c : List (ℤ × Option ℤ)) (u : ℤ) (relax : Bool) : Bool :=
  match dictGet c u with
  | none => false
  | some none => false
  | some (some v) =>
    if v = 0 then false
    else if !relax then decide (v % 2 = 1)
    else decide (v / 2 % 2 = 1)

theorem dict_find_map_ite {K V : Type} [DecidableEq K]
    (l : List (K × V)) (k : K) (v : V)
    (h : l.any (fun e => decide (e.1 = k)) = true) :
    (l.map (fun e => if e.1 = k then (k, v) else e)).find?
      (fun e => decide (e.1 = k)) = some (k, v) := by
  induction l with
  | nil => simp at h
  | cons e t ih =>
    by_cases hek : e.1 = k
    · simp [List.find?, hek]
    · have ht : t.any (fun e => decide (e.1 = k)) = true := by
        simp [List.any_cons, hek] at h
        simpa using h
      simp [List.find?, hek, ih ht]

theorem dict_find_append_single {K V : Type} [DecidableEq K]
    (l : List (K × V)) (k : K) (v : V)
    (h : l.any (fun e => decide (e.1 = k)) = false) :
    (l ++ [(k, v)]).find? (fun e => decide (e.1 = k)) = some (k, v) := by
  induction l with
  | nil => simp [List.find?]
  | cons e t ih =>
    rw [List.any_cons, Bool.or_eq_false_iff] at h
    obtain ⟨h1, h2⟩ := h
    rw [List.cons_append, List.find?_cons_of_neg _ (by simp at h1; simp [h1])]
    exact ih h2

/-- Reading back the key just written into a dict. -/
theorem dictGet_dictSet_self {K V : Type} [DecidableEq K]
    (l : List (K × V)) (k : K) (v : V) :
    dictGet (dictSet l k v) k = some v := by
  unfold dictGet dictSet
  by_cases h : l.any (fun e => decide (e.1 = k)) = true
  · rw [if_pos h, dict_find_map_ite l k v h]
    rfl
  · have h2 : l.any (fun e => decide (e.1 = k)) = false := by
      revert h
      cases l.any (fun e => decide (e.1 = k)) <;> simp
    rw [if_neg (by simp [h2]), dict_find_append_single l k v h2]
    rfl

/-- A deleted key reads back as absent. -/
theorem dictGet_dictDel_self {K V : Type} [DecidableEq K]
    (l : List (K × V)) (k : K) :
    dictGet (dictDel l k) k = none := by
  unfold dictGet dictDel
  induction l with
  | nil => simp
  | cons e t ih =>
    by_cases hek : e.1 = k
    · rw [List.filter_cons_of_neg (by simp [hek])]
      exact ih
    · rw [List.filter_cons_of_pos (by simp [hek]),
        List.find?_cons_of_neg _ (by simp [hek])]
      exact ih

theorem updateFirst_of_forall_false {α : Type} {p : α → Bool} {f : α → α} :
    ∀ l : List α, (∀ x ∈ l, p x = false) → updateFirst p f l = l := by
  intro l h
  induction l with
  | nil => rfl
  | cons x t ih =>
    have hx := h x (by simp)
    simp [updateFirst, hx, ih (fun y hy => h y (by simp [hy]))]

theorem updateFirst_append_first {α : Type} {p : α → Bool} {f : α → α}
    (l1 : List α) (b : α) (l2 : List α)
    (h1 : ∀ x ∈ l1, p x = false) (hb : p b = true) :
    updateFirst p f (l1 ++ b :: l2) = l1 ++ f b :: l2 := by
  induction l1 with
  | nil => simp [updateFirst, hb]
  | cons x t ih =>
    have hx := h1 x (by simp)
    simp [updateFirst, hx, ih (fun y hy => h1 y (by simp [hy]))]

theorem length_updateFirst {α : Type} (p : α → Bool) (f : α → α) :
    ∀ l : List α, (updateFirst p f l).length = l.length := by
  intro l
  induction l with
  | nil => rfl
  | cons x t ih =>
    by_cases hx : p x = true
    · simp [updateFirst, hx]
    · simp only [updateFirst, hx, Bool.false_eq_true, if_false]
      simp [ih]

theorem map_updateFirst {α β : Type} (p : α → Bool) (f : α → α) (g : α → β)
    (hg : ∀ x, g (f x) = g x) :
    ∀ l : List α, (updateFirst p f l).map g = l.map g := by
  intro l
  induction l with
  | nil => rfl
  | cons x t ih =>
    by_cases hx : p x = true
    · simp [updateFirst, hx, hg]
    · simp only [updateFirst, hx, Bool.false_eq_true, if_false]
      simp [ih]

theorem any_updateFirst {α : Type} (p : α → Bool) (f : α → α) (q : α → Bool)
    (hq : ∀ x, q (f x) = q x) :
    ∀ l : List α, (updateFirst p f l).any q = l.any q := by
  intro l
  induction l with
  | nil => rfl
  | cons x t ih =>
    by_cases hx : p x = true
    · simp [updateFirst, hx, hq]
    · simp only [updateFirst, hx, Bool.false_eq_true, if_false]
      simp [ih]

theorem find?_split {α : Type} {p : α → Bool} :
    ∀ {l : List α} {b : α}, l.find? p = some b →
      ∃ l1 l2, l = l1 ++ b :: l2 ∧ ∀ x ∈ l1, p x = false := by
  intro l
  induction l with
  | nil => intro b h; simp [List.find?] at h
  | cons x t ih =>
    intro b h
    by_cases hx : p x = true
    · refine ⟨[], t, ?_, by simp⟩
      simp [List.find?, hx] at h
      simp [h]
    · have hx2 : p x = false := by
        revert hx; cases p x <;> simp
      rw [List.find?_cons_of_neg _ (by simp [hx2])] at h
      obtain ⟨l1, l2, rfl, hall⟩ := ih h
      exact ⟨x :: l1, l2, by simp, by
        intro y hy
        rcases List.mem_cons.mp hy with rfl | hy2
        · exact hx2
        · exact hall y hy2⟩

theorem recalcTotalPP_enumFrom (l : List ℚ) : ∀ (k : ℕ) (acc : ℤ),
    (List.enumFrom k l).foldl
      (fun total_pp x => total_pp + pyRound ((pyRound x.2 : ℚ) * (19 / 20) ^ x.1)) acc
      = acc + ∑ i ∈ Finset.range l.length,
          pyRound ((pyRound (l.getD i 0) : ℚ) * (19 / 20) ^ (k + i)) := by
  induction l with
  | nil => intro k acc; simp
  | cons a t ih =>
    intro k acc
    rw [List.enumFrom_cons, List.foldl_cons,
      ih (k + 1) (acc + pyRound ((pyRound a : ℚ) * (19 / 20) ^ k))]
    rw [List.length_cons, Finset.sum_range_succ']
    have hsh : ∀ i : ℕ, k + 1 + i = k + (i + 1) := by omega
    simp only [List.getD_cons_succ, List.getD_cons_zero, Nat.add_zero, hsh]
    ring

/-- C6: the weighted performance aggregate over top values equals the sum of
round(round(value) * 0.95 to the rank) over 0-indexed ranks, and on the
values 500, 400, 300 it equals 1151. -/
theorem stats_weighted_pp_formula :
    (∀ scores : List ℚ, recalcTotalPP scores =
      ∑ i ∈ Finset.range scores.length,
        pyRound ((pyRound (scores.getD i 0) : ℚ) * (19 / 20) ^ i)) ∧
    recalcTotalPP [500, 400, 300] = 1151 := by
  constructor
  · intro scores
    unfold recalcTotalPP
    rw [List.enum, recalcTotalPP_enumFrom scores 0 0]
    simp
  · norm_num [recalcTotalPP, List.enum, List.enumFrom, List.foldl, pyRound]

/-- C4: refuted. Inserting five distinct, unexpired keys into a cache of
capacity limit 4 leaves ONE entry (the newest), not the four newest: the
capacity pass only skips eviction when the count equals the limit exactly,
and its negative Python slice evicts oldest entries while below the limit. -/
theorem lru_capacity_code_bug :
    c4Run._cache.map Prod.fst = [5] ∧
    c4Run._cache.length = 1 ∧
    ¬c4Run._cache.map Prod.fst = [2, 3, 4, 5] := by decide

/-- C10: an autopilot submission is persisted into the table named by
Mode.scores_table (scores_ap), while a database leaderboard load for the
autopilot mode reads the scores table (chosen by the relax flag alone)
ordered by raw score, so the persisted row never appears in a leaderboard
built from the database for that mode. -/
theorem ap_scores_not_in_db_leaderboard (s : ScoreSub) (db : List ScoreRow)
    (status : ℤ) (md5 : String) (h : s.mode = Mode.AP_STANDARD) :
    Mode.scores_table Mode.AP_STANDARD = "scores_ap" ∧
    lb_from_db_table Mode.AP_STANDARD = "scores" ∧
    lb_from_db_sort Mode.AP_STANDARD = "score" ∧
    lb_from_db_select (db ++ [submit_row s status]) md5 Mode.AP_STANDARD =
      lb_from_db_select db md5 Mode.AP_STANDARD := by
  refine ⟨rfl, rfl, rfl, ?_⟩
  unfold lb_from_db_select
  rw [List.filter_append]
  have hnil : List.filter
      (fun r => decide (r.table = lb_from_db_table Mode.AP_STANDARD) &&
        decide (r.beatmap_md5 = md5) &&
        decide (r.play_mode = Mode.as_mode_int Mode.AP_STANDARD) &&
        decide (r.completed = 3)) [submit_row s status] = [] := by
    have htab : (submit_row s status).table = "scores_ap" := by
      show s.mode.scores_table = "scores_ap"
      rw [h]
      rfl
    simp [List.filter, htab, lb_from_db_table, Mode.relax, Mode.val]
  rw [hnil, List.append_nil]

/-- Witness for C10 at a concrete autopilot submission. -/
def c10_sub : ScoreSub :=
  { user_id := 7, map_md5 := "m", mode := Mode.AP_STANDARD, pp := 100,
    score := 1000, n300 := 1, n100 := 0, n50 := 0, geki := 0, katu := 0,
    checksum := "ck", passed := true, quit := false }

theorem ap_scores_not_in_db_leaderboard_witness :
    Mode.scores_table Mode.AP_STANDARD = "scores_ap" ∧
    lb_from_db_table Mode.AP_STANDARD = "scores" ∧
    lb_from_db_sort Mode.AP_STANDARD = "score" ∧
    lb_from_db_select ([] ++ [submit_row c10_sub 3]) "m" Mode.AP_STANDARD =
      lb_from_db_select [] "m" Mode.AP_STANDARD :=
  ap_scores_not_in_db_leaderboard c10_sub [] 3 "m" rfl

/-- C9: refuted as stated. With no backing row, the whitelist reload
finishes without any error and writes the null row into the cache, and the
clan reload also finishes without any error. -/
theorem lookup_cache_missing_row_counterexample :
    (whitelist_cache_individual [] 1 none).1 = Except.ok () ∧
    dictGet (whitelist_cache_individual [] 1 none).2 1 = some none ∧
    (clan_cache_individual [] 1 none).1 = Except.ok () :=
  ⟨rfl, rfl, rfl⟩

/-- C9 amended: on a reload that finds no backing row, the privilege and
country caches raise the ad hoc NotFound-kind error and cache nothing; the
clan cache returns silently and caches nothing; the whitelist cache returns
silently and stores the null row, although whitelist reads of that key
still come back false. -/
theorem lookup_cache_missing_row (c1 : List (ℤ × ℤ)) (c2 c3 : List (ℤ × String))
    (c4 : List (ℤ × Option ℤ)) (u : ℤ) :
    ((priv_cache_individual c1 u none).1 = Except.error CacheErr.WTFError ∧
      dictGet (priv_cache_individual c1 u none).2 u = none) ∧
    ((country_cache_individual c2 u none).1 = Except.error CacheErr.WTFError ∧
      dictGet (country_cache_individual c2 u none).2 u = none) ∧
    ((clan_cache_individual c3 u none).1 = Except.ok () ∧
      dictGet (clan_cache_individual c3 u none).2 u = none) ∧
    ((whitelist_cache_individual c4 u none).1 = Except.ok () ∧
      dictGet (whitelist_cache_individual c4 u none).2 u = some none ∧
      whitelist_get (whitelist_cache_individual c4 u none).2 u true = false ∧
      whitelist_get (whitelist_cache_individual c4 u none).2 u false = false) := by
  refine ⟨⟨rfl, ?_⟩, ⟨rfl, ?_⟩, ⟨rfl, ?_⟩, ⟨rfl, ?_, ?_, ?_⟩⟩
  · exact dictGet_dictDel_self c1 u
  · exact dictGet_dictDel_self c2 u
  · exact dictGet_dictDel_self c3 u
  · exact dictGet_dictSet_self (dictDel c4 u) u none
  · unfold whitelist_get whitelist_cache_individual
    rw [dictGet_dictSet_self (dictDel c4 u) u none]
  · unfold whitelist_get whitelist_cache_individual
    rw [dictGet_dictSet_self (dictDel c4 u) u none]

/-- C5: refuted by a crash. Once a decay floor has been cached it is held
as the raw result ROW (a tuple), and the only call site passes no
submission value (score_pp stays None), so every later recalculation
reaches the comparison None against tuple and raises a TypeError instead
of skipping the recompute. With no floor cached yet (the falsy int 0) the
recompute does always run and stores the recomputed weighted total. -/
theorem stats_recalc_floor_bug :
    (∀ (st : StatsState) (q : ℚ) (tops accs : List ℚ),
        st._recalc_pp = PyVal.tupV q →
        Stats.recalc PyVal.noneV tops accs st = Except.error PyErr.typeError) ∧
    (∀ (st : StatsState) (tops accs : List ℚ),
        st._recalc_pp = PyVal.intV 0 → tops ≠ [] →
        ∃ st2, Stats.recalc PyVal.noneV tops accs st = Except.ok st2 ∧
          st2.pp = (recalcTotalPP tops : ℚ)) := by
  constructor
  · intro st q tops accs h
    unfold Stats.recalc
    rw [h]
    rfl
  · intro st tops accs h hne
    unfold Stats.recalc
    rw [h]
    simp only [PyVal.truthy]
    cases htl : tops.getLast? with
    | none =>
      exact absurd (by simpa using htl) hne
    | some last =>
      simp only [htl]
      exact ⟨_, rfl, rfl⟩

/-- Stats state with a cached decay floor row, as left behind by a full
recompute over exactly 125 rows. -/
def c5_floor_state : StatsState :=
  { ranked_score := 0, total_score := 0, pp := 0, accuracy := 0,
    playcount := 0, total_hits := 0, _recalc_pp := PyVal.tupV 250 }

/-- Fresh stats state before any recompute cached a floor. -/
def c5_fresh_state : StatsState :=
  { ranked_score := 0, total_score := 0, pp := 0, accuracy := 0,
    playcount := 0, total_hits := 0, _recalc_pp := PyVal.intV 0 }

theorem stats_recalc_floor_bug_witness :
    Stats.recalc PyVal.noneV [] [] c5_floor_state = Except.error PyErr.typeError ∧
    ∃ st2, Stats.recalc PyVal.noneV [500, 400, 300] [] c5_fresh_state = Except.ok st2 ∧
      st2.pp = (recalcTotalPP [500, 400, 300] : ℚ) :=
  ⟨stats_recalc_floor_bug.1 c5_floor_state 250 [] [] rfl,
   stats_recalc_floor_bug.2 c5_fresh_state [500, 400, 300] [] rfl (by simp)⟩

/-- C7: a hash that resolves from none of cache, store and external service
is memoized as not submitted by its first resolution (which issued exactly
one external-service call and one store query), and a second resolution of
the same hash returns the memoized not-submitted outcome while leaving the
whole resolver state untouched, so no store or external I/O at all. -/
theorem absent_memo_single_external_call (now now2 : ℚ) (md5 : String)
    (st : ResolverState)
    (hmemo : dictGet st.no_check_md5s md5 = none)
    (hcache : st.beatmap_cache.get md5 = none)
    (hdb : st.db_beatmaps md5 = none)
    (hmir : st.mirror md5 = none) :
    (try_bmap now md5 st).1 = (0, none) ∧
    dictGet (try_bmap now md5 st).2.no_check_md5s md5 = some Status.NOT_SUBMITTED ∧
    (try_bmap now md5 st).2.mirror_fetches = st.mirror_fetches + 1 ∧
    (try_bmap now md5 st).2.db_fetches = st.db_fetches + 1 ∧
    (try_bmap now2 md5 (try_bmap now md5 st).2).1 = (0, some NOT_SUB_BMAP) ∧
    (try_bmap now2 md5 (try_bmap now md5 st).2).2 = (try_bmap now md5 st).2 := by
  have h1 : try_bmap now md5 st =
      ((0, none),
        { st with db_fetches := st.db_fetches + 1,
                  mirror_fetches := st.mirror_fetches + 1,
                  no_check_md5s := dictSet st.no_check_md5s md5 Status.NOT_SUBMITTED }) := by
    unfold try_bmap try_bmap_after_memo
    rw [hmemo]
    simp only [hcache, hdb, hmir]
  rw [h1]
  have hmemo2 : dictGet (dictSet st.no_check_md5s md5 Status.NOT_SUBMITTED) md5 =
      some Status.NOT_SUBMITTED := dictGet_dictSet_self _ _ _
  refine ⟨rfl, hmemo2, rfl, rfl, ?_, ?_⟩
  · unfold try_bmap
    rw [hmemo2]
    rfl
  · unfold try_bmap
    rw [hmemo2]
    rfl

/-- Resolver state with an empty memo, empty cache and a store and external
service that know nothing. -/
def c7_state : ResolverState :=
  { no_check_md5s := [],
    beatmap_cache := { _cache := [], length := 7200, _cache_limit := 1000 },
    db_beatmaps := fun _ => none, mirror := fun _ => none,
    db_fetches := 0, mirror_fetches := 0 }

theorem absent_memo_single_external_call_witness :
    (try_bmap 0 "m" c7_state).1 = (0, none) ∧
    dictGet (try_bmap 0 "m" c7_state).2.no_check_md5s "m" = some Status.NOT_SUBMITTED ∧
    (try_bmap 0 "m" c7_state).2.mirror_fetches = c7_state.mirror_fetches + 1 ∧
    (try_bmap 0 "m" c7_state).2.db_fetches = c7_state.db_fetches + 1 ∧
    (try_bmap 0 "m" (try_bmap 0 "m" c7_state).2).1 = (0, some NOT_SUB_BMAP) ∧
    (try_bmap 0 "m" (try_bmap 0 "m" c7_state).2).2 = (try_bmap 0 "m" c7_state).2 :=
  absent_memo_single_external_call 0 0 "m" c7_state rfl rfl rfl rfl

/-- C1: refuted. For EVERY frozen beatmap (regardless of age, including a
record checked this instant) deserves_update is true, and a resolution that
finds such a map in the cache issues an external-service call in its
update-check step. The claim states the exact opposite. -/
theorem frozen_map_still_checked (now : ℚ) (md5 : String) (st : ResolverState)
    (b : LWBeatmap)
    (hmemo : dictGet st.no_check_md5s md5 = none)
    (hcache : st.beatmap_cache.get md5 = some b)
    (hfrozen : b.frozen = true)
    (hstatus : b.status ≠ Status.UPDATE_AVAILABLE) :
    deserves_update now b = true ∧
    (try_bmap now md5 st).2.mirror_fetches = st.mirror_fetches + 1 := by
  have hdu : deserves_update now b = true := by
    unfold deserves_update
    rw [hfrozen]
    simp
  refine ⟨hdu, ?_⟩
  unfold try_bmap try_bmap_after_memo
  rw [hmemo]
  simp only [hcache]
  unfold try_bmap_update
  rw [if_neg hstatus, if_pos hdu]
  cases hm : st.mirror md5 with
  | none => simp [hm]
  | some cd =>
    simp only [hm]
    split <;> simp [save_and_cache]

/-- Frozen ranked beatmap whose record was checked at the very instant of
the resolution (age zero). -/
def c1_bmap : LWBeatmap :=
  { id := 1, set_id := 1, md5 := "m", status := Status.RANKED,
    song_name := "a - b [c]", rating := 10, last_update_ts := 0,
    frozen := true, playcount := 0, passcount := 0 }

/-- Resolver state holding the frozen beatmap in its cache. -/
def c1_state : ResolverState :=
  { no_check_md5s := [],
    beatmap_cache := { _cache := [("m", { expire := 9999, obj := c1_bmap })],
                       length := 7200, _cache_limit := 1000 },
    db_beatmaps := fun _ => none, mirror := fun _ => none,
    db_fetches := 0, mirror_fetches := 0 }

theorem frozen_map_still_checked_witness :
    deserves_update 0 c1_bmap = true ∧
    (try_bmap 0 "m" c1_state).2.mirror_fetches = c1_state.mirror_fetches + 1 :=
  frozen_map_still_checked 0 "m" c1_state c1_bmap rfl rfl rfl (by decide)

/-- Existing best row of user 1 on map m in the vanilla standard table:
performance 100, raw score 1000. -/
def c3_best : ScoreRow :=
  { table := "scores", userid := 1, beatmap_md5 := "m", play_mode := 0,
    completed := 3, pp := 100, score := 1000, checksum := "A" }

/-- Passing vanilla-standard submission whose raw score (2000) exceeds the
best rows raw score while its performance value (50) does not. -/
def c3_sub : ScoreSub :=
  { user_id := 1, map_md5 := "m", mode := Mode.VN_STANDARD, pp := 50,
    score := 2000, n300 := 1, n100 := 0, n50 := 0, geki := 0, katu := 0,
    checksum := "B", passed := true, quit := false }

/-- C3: refuted as stated. In the vanilla standard mode the ranking metric
is the raw score, and this submission exceeds the existing best on that
metric, yet classification returns status 2 and demotes nothing, because
Score.calc_status compares performance values for every mode. -/
theorem calc_status_metric_counterexample :
    ranking_metric Mode.VN_STANDARD c3_sub.pp c3_sub.score >
      ranking_metric Mode.VN_STANDARD c3_best.pp c3_best.score ∧
    (calc_status c3_sub [c3_best]).1 = 2 ∧
    (calc_status c3_sub [c3_best]).2 = [c3_best] := by
  refine ⟨by norm_num [ranking_metric, Mode.val, c3_sub, c3_best], ?_, ?_⟩ <;>
    norm_num [calc_status, c3_sub, c3_best, updateFirst, isPrevBest,
      Mode.scores_table, Mode.autopilot, Mode.relax, Mode.as_mode_int, Mode.val]

/-- C3 amended: for a completed-and-passing submission against a store with
at most one best row for the key, classification gives 3 with an untouched
store when no best row exists; when a best row exists the new score gets 3
exactly when its PERFORMANCE VALUE (for every mode, not the per-mode
ranking metric) exceeds the best rows, otherwise 2, and exactly in the
status-3 case the best row is demoted to completion status 2. -/
theorem calc_status_amended (s : ScoreSub) (db : List ScoreRow)
    (hq : s.quit = false) (hp : s.passed = true)
    (huniq : (db.filter (isPrevBest s)).length ≤ 1) :
    match db.find? (isPrevBest s) with
    | none => calc_status s db = (3, db)
    | some b =>
        ((calc_status s db).1 = 3 ↔ b.pp < s.pp) ∧
        ((calc_status s db).1 = 2 ↔ ¬b.pp < s.pp) ∧
        (¬b.pp < s.pp → (calc_status s db).2 = db) ∧
        (b.pp < s.pp →
          ({ b with completed := 2 } : ScoreRow) ∈ (calc_status s db).2 ∧
          ∀ r ∈ (calc_status s db).2, isPrevBest s r = false) := by
  cases hf : db.find? (isPrevBest s) with
  | none =>
    have hall : ∀ r ∈ db, isPrevBest s r = false := by
      intro r hr
      have := List.find?_eq_none.mp hf r hr
      simpa using this
    have hupd : updateFirst (fun r => isPrevBest s r && decide (r.pp < s.pp))
        (fun r => { r with completed := 2 }) db = db :=
      updateFirst_of_forall_false db (by intro x hx; simp [hall x hx])
    have hany : db.any (isPrevBest s) = false := by
      rw [List.any_eq_false]
      intro x hx
      simp [hall x hx]
    simp [calc_status, hq, hp, hupd, hany]
  | some b =>
    obtain ⟨l1, l2, hdb, hl1⟩ := find?_split hf
    have hbmem : isPrevBest s b = true := List.find?_some hf
    subst hdb
    have hl2 : ∀ r ∈ l2, isPrevBest s r = false := by
      rw [List.filter_append, List.filter_cons_of_pos (by simpa using hbmem)] at huniq
      have hnil1 : List.filter (isPrevBest s) l1 = [] := by
        rw [List.filter_eq_nil_iff]
        intro x hx
        simp [hl1 x hx]
      rw [hnil1] at huniq
      simp only [List.nil_append, List.length_cons] at huniq
      have hzero : (List.filter (isPrevBest s) l2).length = 0 := by omega
      have hnil2 := List.length_eq_zero.mp hzero
      intro r hr
      by_contra hc
      have hmem : r ∈ List.filter (isPrevBest s) l2 := by
        rw [List.mem_filter]
        exact ⟨hr, by revert hc; cases isPrevBest s r <;> simp⟩
      rw [hnil2] at hmem
      simp at hmem
    by_cases hlt : b.pp < s.pp
    · have hupd : updateFirst (fun r => isPrevBest s r && decide (r.pp < s.pp))
          (fun r => { r with completed := 2 }) (l1 ++ b :: l2) =
          l1 ++ ({ b with completed := 2 } : ScoreRow) :: l2 :=
        updateFirst_append_first l1 b l2
          (fun x hx => by simp [hl1 x hx]) (by simp [hbmem, hlt])
      have hdem : isPrevBest s ({ b with completed := 2 } : ScoreRow) = false := by
        unfold isPrevBest at hbmem ⊢
        simp only [Bool.and_eq_true, decide_eq_true_eq] at hbmem
        simp
      have hany : (l1 ++ ({ b with completed := 2 } : ScoreRow) :: l2).any
          (isPrevBest s) = false := by
        rw [List.any_eq_false]
        intro x hx
        rcases List.mem_append.mp hx with hx1 | hx2
        · simp [hl1 x hx1]
        · rcases List.mem_cons.mp hx2 with rfl | hx3
          · simp [hdem]
          · simp [hl2 x hx3]
      have hcs : calc_status s (l1 ++ b :: l2) =
          (3, l1 ++ ({ b with completed := 2 } : ScoreRow) :: l2) := by
        unfold calc_status
        rw [hq, hp]
        simp only [Bool.false_eq_true, if_false, Bool.not_true]
        rw [hupd, hany]
        simp
      rw [hcs]
      refine ⟨by simp [hlt], by simp [hlt], by intro hc; exact absurd hlt hc, ?_⟩
      intro _
      constructor
      · simp
      · intro r hr
        rw [List.any_eq_false] at hany
        simpa using hany r hr
    · have hupd : updateFirst (fun r => isPrevBest s r && decide (r.pp < s.pp))
          (fun r => { r with completed := 2 }) (l1 ++ b :: l2) = l1 ++ b :: l2 := by
        apply updateFirst_of_forall_false
        intro x hx
        rcases List.mem_append.mp hx with hx1 | hx2
        · simp [hl1 x hx1]
        · rcases List.mem_cons.mp hx2 with rfl | hx3
          · simp [hlt]
          · simp [hl2 x hx3]
      have hany : (l1 ++ b :: l2).any (isPrevBest s) = true := by
        rw [List.any_eq_true]
        exact ⟨b, by simp, hbmem⟩
      have hcs : calc_status s (l1 ++ b :: l2) = (2, l1 ++ b :: l2) := by
        unfold calc_status
        rw [hq, hp]
        simp only [Bool.false_eq_true, if_false, Bool.not_true]
        rw [hupd, hany]
        simp
      rw [hcs]
      refine ⟨by simp [hlt], by simp [hlt], fun _ => rfl, fun hc => absurd hc hlt⟩

/-- Passing vanilla-standard submission whose performance value (150)
exceeds the existing best rows performance value. -/
def c3_sub2 : ScoreSub :=
  { user_id := 1, map_md5 := "m", mode := Mode.VN_STANDARD, pp := 150,
    score := 900, n300 := 1, n100 := 0, n50 := 0, geki := 0, katu := 0,
    checksum := "C", passed := true, quit := false }

theorem calc_status_amended_witness :
    ((calc_status c3_sub2 [c3_best]).1 = 3 ↔ c3_best.pp < c3_sub2.pp) ∧
    ((calc_status c3_sub2 [c3_best]).1 = 2 ↔ ¬c3_best.pp < c3_sub2.pp) ∧
    (¬c3_best.pp < c3_sub2.pp → (calc_status c3_sub2 [c3_best]).2 = [c3_best]) ∧
    (c3_best.pp < c3_sub2.pp →
      ({ c3_best with completed := 2 } : ScoreRow) ∈ (calc_status c3_sub2 [c3_best]).2 ∧
      ∀ r ∈ (calc_status c3_sub2 [c3_best]).2, isPrevBest c3_sub2 r = false) := by
  have h := calc_status_amended c3_sub2 [c3_best] rfl rfl
    (le_trans (List.length_filter_le _ _) (by simp))
  rw [show List.find? (isPrevBest c3_sub2) [c3_best] = some c3_best from by decide] at h
  exact h

/-- Best row of user 1 (performance 50) that the classification step can
demote before the duplicate check runs. -/
def c2_best : ScoreRow :=
  { table := "scores", userid := 1, beatmap_md5 := "m", play_mode := 0,
    completed := 3, pp := 50, score := 500, checksum := "A" }

/-- Non-best row already holding the checksum X that the new submission
duplicates. -/
def c2_other : ScoreRow :=
  { table := "scores", userid := 2, beatmap_md5 := "m", play_mode := 0,
    completed := 2, pp := 10, score := 100, checksum := "X" }

/-- Passing submission by user 1 with duplicate checksum X and performance
value 100 above the existing best. -/
def c2_sub : ScoreSub :=
  { user_id := 1, map_md5 := "m", mode := Mode.VN_STANDARD, pp := 100,
    score := 600, n300 := 1, n100 := 0, n50 := 0, geki := 0, katu := 0,
    checksum := "X", passed := true, quit := false }

/-- Stats object as loaded before the submission. -/
def c2_stats : StatsState :=
  { ranked_score := 0, total_score := 0, pp := 0, accuracy := 0,
    playcount := 0, total_hits := 0, _recalc_pp := PyVal.intV 0 }

/-- Empty vanilla-standard leaderboard. -/
def c2_lb : Leaderboard := { mode := Mode.VN_STANDARD, scores := [] }

/-- C2: refuted as stated. This duplicate submission is reported as a
duplicate, yet the store was mutated before the pipeline stopped: the
classification step, which runs first, demoted the previous best row of
user 1 to non-best. -/
theorem duplicate_demotes_counterexample :
    (handle_submission_core c2_sub [c2_best, c2_other] c2_stats c2_lb).1 =
      SubmissionOutcome.duplicate ∧
    (handle_submission_core c2_sub [c2_best, c2_other] c2_stats c2_lb).2.1 =
      [{ c2_best with completed := 2 }, c2_other] ∧
    ¬(handle_submission_core c2_sub [c2_best, c2_other] c2_stats c2_lb).2.1 =
      [c2_best, c2_other] := by decide

/-- C2 amended: on a duplicate checksum the pipeline stops with the
duplicate outcome; no row is inserted or removed (same length, and every
column other than the completion status is unchanged row by row), and the
in-memory stats and the leaderboard are untouched; but the resulting store
is the one already produced by the classification step, which may have
demoted the submitters previous best row before the duplicate check ran. -/
theorem duplicate_stops_pipeline (s : ScoreSub) (db : List ScoreRow)
    (stats : StatsState) (lb : Leaderboard)
    (hdup : db.any (fun r => decide (r.table = s.mode.scores_table) &&
        decide (r.checksum = s.checksum)) = true) :
    (handle_submission_core s db stats lb).1 = SubmissionOutcome.duplicate ∧
    (handle_submission_core s db stats lb).2.1 = (calc_status s db).2 ∧
    (handle_submission_core s db stats lb).2.2.1 = stats ∧
    (handle_submission_core s db stats lb).2.2.2 = lb ∧
    (calc_status s db).2.length = db.length ∧
    (calc_status s db).2.map
        (fun r => (r.table, r.userid, r.beatmap_md5, r.play_mode, r.pp, r.score, r.checksum)) =
      db.map
        (fun r => (r.table, r.userid, r.beatmap_md5, r.play_mode, r.pp, r.score, r.checksum)) := by
  have hshape : (calc_status s db).2 = db ∨
      (calc_status s db).2 = updateFirst
        (fun r => isPrevBest s r && decide (r.pp < s.pp))
        (fun r => { r with completed := 2 }) db := by
    unfold calc_status
    by_cases h1 : s.quit = true
    · rw [if_pos h1]
      exact Or.inl rfl
    · rw [if_neg h1]
      by_cases h2 : (!s.passed) = true
      · rw [if_pos h2]
        exact Or.inl rfl
      · rw [if_neg h2]
        by_cases hb : (updateFirst (fun r => isPrevBest s r && decide (r.pp < s.pp))
            (fun r => { r with completed := 2 }) db).any (isPrevBest s) = true
        · right
          simp [hb]
        · right
          simp [hb]
  have hlen : (calc_status s db).2.length = db.length := by
    rcases hshape with h | h
    · rw [h]
    · rw [h]
      exact length_updateFirst _ _ db
  have hmap : (calc_status s db).2.map
      (fun r => (r.table, r.userid, r.beatmap_md5, r.play_mode, r.pp, r.score, r.checksum)) =
      db.map
      (fun r => (r.table, r.userid, r.beatmap_md5, r.play_mode, r.pp, r.score, r.checksum)) := by
    rcases hshape with h | h
    · rw [h]
    · rw [h]
      exact map_updateFirst (fun r => isPrevBest s r && decide (r.pp < s.pp))
        (fun r => { r with completed := 2 })
        (fun r => (r.table, r.userid, r.beatmap_md5, r.play_mode, r.pp, r.score, r.checksum))
        (fun x => rfl) db
  have hany : (calc_status s db).2.any (fun r => decide (r.table = s.mode.scores_table) &&
      decide (r.checksum = s.checksum)) = true := by
    rcases hshape with h | h
    · rw [h]
      exact hdup
    · rw [h, any_updateFirst (fun r => isPrevBest s r && decide (r.pp < s.pp))
        (fun r => { r with completed := 2 })
        (fun r => decide (r.table = s.mode.scores_table) && decide (r.checksum = s.checksum))
        (fun x => rfl) db]
      exact hdup
  have hcore : handle_submission_core s db stats lb =
      (SubmissionOutcome.duplicate, (calc_status s db).2, stats, lb) := by
    simp [handle_submission_core, hany]
  rw [hcore]
  exact ⟨rfl, rfl, rfl, rfl, hlen, hmap⟩

theorem duplicate_stops_pipeline_witness :
    (handle_submission_core c2_sub [c2_other] c2_stats c2_lb).1 = SubmissionOutcome.duplicate ∧
    (handle_submission_core c2_sub [c2_other] c2_stats c2_lb).2.1 = (calc_status c2_sub [c2_other]).2 ∧
    (handle_submission_core c2_sub [c2_other] c2_stats c2_lb).2.2.1 = c2_stats ∧
    (handle_submission_core c2_sub [c2_other] c2_stats c2_lb).2.2.2 = c2_lb ∧
    (calc_status c2_sub [c2_other]).2.length = ([c2_other] : List ScoreRow).length ∧
    (calc_status c2_sub [c2_other]).2.map
        (fun r => (r.table, r.userid, r.beatmap_md5, r.play_mode, r.pp, r.score, r.checksum)) =
      ([c2_other] : List ScoreRow).map
        (fun r => (r.table, r.userid, r.beatmap_md5, r.play_mode, r.pp, r.score, r.checksum)) :=
  duplicate_stops_pipeline c2_sub [c2_other] c2_stats c2_lb (by decide)

/-- Descending sortedness of a leaderboard score list under the per-mode
ranking metric (spec section 4.4). -/
def sortedDescBy (m : Mode) (l : List LBScore) : Prop :=
  l.Pairwise (fun a b => lb_metric m b ≤ lb_metric m a)

/-- Invariant of spec section 3: a leaderboard holds at most one entry per
user. -/
def atMostOnePerUser (l : List LBScore) : Prop :=
  ∀ u : ℤ, l.countP (fun t => decide (t.user_id = u)) ≤ 1

theorem add_score_filter_self (lb : Leaderboard) (s : LBScore) :
    (lb.add_score s).scores.filter (fun t => decide (t.user_id = s.user_id)) = [s] := by
  show (((lb.scores.filter (fun t => !(decide (t.user_id = s.user_id)))) ++ [s]).mergeSort
      (fun a b => decide (lb_metric lb.mode b ≤ lb_metric lb.mode a))).filter
      (fun t => decide (t.user_id = s.user_id)) = [s]
  have hperm := (List.mergeSort_perm
    ((lb.scores.filter (fun t => !(decide (t.user_id = s.user_id)))) ++ [s])
    (fun a b => decide (lb_metric lb.mode b ≤ lb_metric lb.mode a))).filter
    (fun t => decide (t.user_id = s.user_id))
  rw [List.filter_append] at hperm
  have hkept : (lb.scores.filter (fun t => !(decide (t.user_id = s.user_id)))).filter
      (fun t => decide (t.user_id = s.user_id)) = [] := by
    rw [List.filter_eq_nil_iff]
    intro a ha
    have := (List.mem_filter.mp ha).2
    simpa using this
  have hself : List.filter (fun t => decide (t.user_id = s.user_id)) [s] = [s] := by
    simp
  rw [hkept, hself, List.nil_append] at hperm
  exact List.perm_singleton.mp hperm

theorem add_score_sorted (lb : Leaderboard) (s : LBScore) :
    sortedDescBy lb.mode (lb.add_score s).scores := by
  show List.Pairwise (fun a b => lb_metric lb.mode b ≤ lb_metric lb.mode a)
    (((lb.scores.filter (fun t => !(decide (t.user_id = s.user_id)))) ++ [s]).mergeSort
      (fun a b => decide (lb_metric lb.mode b ≤ lb_metric lb.mode a)))
  have hs := @List.sorted_mergeSort LBScore
    (fun a b => decide (lb_metric lb.mode b ≤ lb_metric lb.mode a))
    (by
      intro a b c hab hbc
      simp only [decide_eq_true_eq] at hab hbc ⊢
      exact le_trans hbc hab)
    (by
      intro a b
      simpa using le_total (lb_metric lb.mode b) (lb_metric lb.mode a))
    ((lb.scores.filter (fun t => !(decide (t.user_id = s.user_id)))) ++ [s])
  exact hs.imp (fun h => by simpa using h)

theorem add_score_at_most_one (lb2 : Leaderboard) (s : LBScore)
    (hone : atMostOnePerUser lb2.scores) :
    atMostOnePerUser (lb2.add_score s).scores := by
  intro u
  show (((lb2.scores.filter (fun t => !(decide (t.user_id = s.user_id)))) ++ [s]).mergeSort
      (fun a b => decide (lb_metric lb2.mode b ≤ lb_metric lb2.mode a))).countP
      (fun t => decide (t.user_id = u)) ≤ 1
  rw [(List.mergeSort_perm _ _).countP_eq, List.countP_append]
  by_cases hu : s.user_id = u
  · have h0 : (lb2.scores.filter (fun t => !(decide (t.user_id = s.user_id)))).countP
        (fun t => decide (t.user_id = u)) = 0 := by
      rw [List.countP_filter]
      have hff : (fun (a : LBScore) =>
          decide (a.user_id = u) && !(decide (a.user_id = s.user_id))) = fun _ => false := by
        funext a
        by_cases ha : a.user_id = u
        · simp [ha, hu]
        · simp [ha]
      rw [hff, List.countP_false]
      rfl
    rw [h0]
    simp [List.countP_cons, hu]
  · have h1 : List.countP (fun t => decide (t.user_id = u)) [s] = 0 := by
      simp [List.countP_cons, hu]
    rw [h1]
    have h2 : (lb2.scores.filter (fun t => !(decide (t.user_id = s.user_id)))).countP
        (fun t => decide (t.user_id = u)) ≤
        lb2.scores.countP (fun t => decide (t.user_id = u)) := by
      rw [List.countP_filter]
      exact List.countP_mono_left (by
        intro x hx h
        simp only [Bool.and_eq_true] at h
        exact h.1)
    have h3 := hone u
    omega

/-- C8: calling addScore twice with scores of the same user leaves exactly
one entry of that user, the one added last; the resulting list is sorted
descending by the ranking metric; and addScore preserves the at most one
entry per user invariant on any leaderboard. -/
theorem add_score_same_user_idempotent (lb : Leaderboard) (s1 s2 : LBScore)
    (h : s1.user_id = s2.user_id) :
    (((lb.add_score s1).add_score s2).scores.filter
        (fun t => decide (t.user_id = s1.user_id)) = [s2]) ∧
    sortedDescBy lb.mode (((lb.add_score s1).add_score s2).scores) ∧
    (∀ (lb2 : Leaderboard) (s : LBScore), atMostOnePerUser lb2.scores →
      atMostOnePerUser (lb2.add_score s).scores) :=
  ⟨by rw [h]; exact add_score_filter_self (lb.add_score s1) s2,
   add_score_sorted (lb.add_score s1) s2,
   fun lb2 s hone => add_score_at_most_one lb2 s hone⟩

/-- Empty relax-standard leaderboard for the C8 witness. -/
def c8_lb : Leaderboard := { mode := Mode.RX_STANDARD, scores := [] }

/-- First score of user 7: performance 120. -/
def c8_s1 : LBScore := { id := 11, user_id := 7, pp := 120, score := 700 }

/-- Second score of user 7: performance 90. -/
def c8_s2 : LBScore := { id := 12, user_id := 7, pp := 90, score := 900 }

theorem add_score_same_user_idempotent_witness :
    ((((c8_lb.add_score c8_s1).add_score c8_s2).scores.filter
        (fun t => decide (t.user_id = c8_s1.user_id)) = [c8_s2]) ∧
    sortedDescBy c8_lb.mode (((c8_lb.add_score c8_s1).add_score c8_s2).scores) ∧
    (∀ (lb2 : Leaderboard) (s : LBScore), atMostOnePerUser lb2.scores →
      atMostOnePerUser (lb2.add_score s).scores)) :=
  add_score_same_user_idempotent c8_lb c8_s1 c8_s2 rfl
